import Mathlib

/-!
# blue-admin: login grants, secret-rotation task, endpoint deletion

A shallow embedding of four functions of the repository:

* `controllers/login.go`: `PostLogin` (the three grant flows and their rejections) and
  `CheckLogin` (verification of the `X-APP-TOKEN` header);
* `bluetasks/tasks..go`: `ScheduledTasks` (the tasks handed to the scheduler);
* `controllers/endpoint_controller.go`: `DeleteEndpoint`.

The packages `utils`, `models`, `database` and the libraries (validator, gorm, jwt,
tasks) are not part of the embedded sources.  Their functions appear as fields of an
environment record (`Deps`), and every call a handler makes to them is recorded in an
effect trace, so that "no lookup", "no token created" are statements about the trace.
-/

namespace BlueAdmin

/-! ## Data model -/

/-- Role row attached to a user (`models.Role`); the login flow reads the name only. -/
structure Role where
  Name : String
deriving DecidableEq, Repr

/-- User row (`models.User`) as far as `PostLogin` reads it; `ID` is the unsigned key. -/
structure User where
  ID : Nat
  UUID : String
  Email : String
  Password : String
  Disabled : Bool
  Roles : List Role
deriving DecidableEq, Repr

/-- Claims returned by `utils.ParseJWTToken` (fields read at login.go:111-114). -/
structure Claims where
  Email : String
  UUID : String
  Roles : List String
  UserID : Int
deriving DecidableEq, Repr

/-- Request body, login.go:17-22. -/
structure LoginPost where
  GrantType : String
  Email : String
  Password : String
  Token : String
deriving DecidableEq, Repr

/-- Token pair of a granted login, login.go:25-29. -/
structure TokenResponse where
  AccessToken : String
  RefreshToken : String
  TokenType : String
deriving DecidableEq, Repr

/-- Endpoint row (`models.Endpoint`): the key and the name. -/
structure Endpoint where
  ID : Nat
  Name : String
deriving DecidableEq, Repr

/-- Values stored in the `Data` field (an `interface{}`) of `common.ResponseHTTP`. -/
inductive Payload where
  | null
  | text (s : String)
  | tokens (t : TokenResponse)
  | claims (c : Claims)
  | endpoint (e : Endpoint)
deriving DecidableEq, Repr

/-- Record `common.ResponseHTTP`. -/
structure ResponseHTTP where
  Success : Bool
  Message : String
  Data : Payload
deriving DecidableEq, Repr

/-- What a handler sends: `contx.Status(code).JSON(body)`. -/
structure Reply where
  Status : Nat
  Body : ResponseHTTP
deriving DecidableEq, Repr

/-- Calls a handler makes to the credential collaborators, in program order. -/
inductive Effect where
  | userLookup (email : String)
  | passwordsMatch (hash : String) (password : String)
  | parseToken (token : String)
  | createToken (email uuid : String) (userID : Int) (roles : List String) (ttl : Int)
deriving DecidableEq, Repr

/-- Collaborators of `PostLogin` that live outside the embedded sources. -/
structure Deps where
  /-- The `email` rule of the validator library. -/
  isEmail : String → Bool
  /-- Text of the error `validate.Struct` reports for a rejected request. -/
  validationError : LoginPost → String
  /-- Rows of the users table, in primary-key order. -/
  users : List User
  /-- A failure of the query itself (connection lost, ...), if any. -/
  dbError : Option String
  /-- Function `utils.PasswordsMatch(hash, password)`. -/
  PasswordsMatch : String → String → Bool
  /-- Function `utils.ParseJWTToken(token)`: the claims, returned by value (login.go:111-114
  reads them before the error is tested), and the error (`none` is `nil`). -/
  ParseJWTToken : String → Claims × Option String
  /-- Function `utils.CreateJWTToken(email, uuid, user_id, roles, ttl)`. -/
  CreateJWTToken : String → String → Int → List String → Int → String × Option String

/-! ## `PostLogin` -/

/-- Go conversion `int(x)` of an unsigned 64-bit value: two's complement reinterpretation. -/
def goInt (n : Nat) : Int :=
  if n % 2 ^ 64 < 2 ^ 63 then ((n % 2 ^ 64 : Nat) : Int) else ((n % 2 ^ 64 : Nat) : Int) - 2 ^ 64

/-- Struct validation of login.go:18-19: `grant_type` is `required`, `email` must satisfy
`email,min=6,max=32`; the password and token carry no rule.  Returns the error text. -/
def validateStruct (d : Deps) (req : LoginPost) : Option String :=
  if req.GrantType ≠ "" ∧ d.isEmail req.Email = true ∧ 6 ≤ req.Email.length ∧ req.Email.length ≤ 32 then
    none
  else
    some (d.validationError req)

/-- Query of login.go:75: `Where("email = ? AND disabled = ?", email, false).First(&user)`. -/
def First (d : Deps) (email : String) : Except String User :=
  match d.dbError with
  | some e => .error e
  | none =>
    match d.users.find? (fun u => u.Email == email && u.Disabled == false) with
    | some u => .ok u
    | none => .error "record not found"

/-- Loop of login.go:83-87: start from the empty slice, append each role's name. -/
def roleNames (rs : List Role) : List String :=
  rs.foldl (fun roles value => roles ++ [value.Name]) []

/-- Handler `PostLogin`, login.go:42-158.  `body` is the outcome of `contx.BodyParser`:
the parsed request or the parse error's text. -/
def PostLogin (d : Deps) (body : Except String LoginPost) : Reply × List Effect :=
  match body with
  | .error e => (⟨400, ⟨false, e, .null⟩⟩, [])
  | .ok req =>
    match validateStruct d req with
    | some e => (⟨400, ⟨false, e, .null⟩⟩, [])
    | none =>
      if req.GrantType = "authorization_code" then
        match First d req.Email with
        | .error e => (⟨503, ⟨false, e, .null⟩⟩, [.userLookup req.Email])
        | .ok user =>
          if d.PasswordsMatch user.Password req.Password = true then
            let roles := roleNames user.Roles
            let accessString := (d.CreateJWTToken user.Email user.UUID (goInt user.ID) roles 60).1
            let refreshString := (d.CreateJWTToken user.Email user.UUID (goInt user.ID) roles 65).1
            (⟨202, ⟨true, "Authorization Granted", .tokens ⟨accessString, refreshString, "Bearer"⟩⟩⟩,
              [.userLookup req.Email, .passwordsMatch user.Password req.Password,
               .createToken user.Email user.UUID (goInt user.ID) roles 60,
               .createToken user.Email user.UUID (goInt user.ID) roles 65])
          else
            (⟨401, ⟨false, "Make sure You are Providing the Correct Credentials",
                .text "Authenthication Failed"⟩⟩,
              [.userLookup req.Email, .passwordsMatch user.Password req.Password])
      else if req.GrantType = "refresh_token" then
        let parsed := d.ParseJWTToken req.Token
        let email := parsed.1.Email
        let uuid := parsed.1.UUID
        let roles := parsed.1.Roles
        let user_id := parsed.1.UserID
        match parsed.2 with
        | none =>
          let accessString := (d.CreateJWTToken email uuid user_id roles 60).1
          let refreshString := (d.CreateJWTToken email uuid user_id roles 65).1
          (⟨202, ⟨true, "Authorization Granted", .tokens ⟨accessString, refreshString, "Bearer"⟩⟩⟩,
            [.parseToken req.Token, .createToken email uuid user_id roles 60,
             .createToken email uuid user_id roles 65])
        | some _ =>
          (⟨400, ⟨false, "Request Type Unknown", .text "Currently Not Implemented"⟩⟩,
            [.parseToken req.Token])
      else if req.GrantType = "token_decode" then
        let parsed := d.ParseJWTToken req.Token
        match parsed.2 with
        | none => (⟨202, ⟨true, "Token decode sucessfull", .claims parsed.1⟩⟩, [.parseToken req.Token])
        | some err => (⟨400, ⟨false, err, .text "Unknown grant type"⟩⟩, [.parseToken req.Token])
      else
        (⟨400, ⟨false, "Request Type Unknown", .text "Unknown grant type"⟩⟩, [])

/-- The reply to a request whose grant type is none of the three known ones, login.go:150-155. -/
def unsupportedGrantReply : Reply :=
  ⟨400, ⟨false, "Request Type Unknown", .text "Unknown grant type"⟩⟩

/-- An enabled user with two roles. -/
def sampleUser : User :=
  ⟨1, "u1", "a@b.com", "secret", false, [⟨"admin"⟩, ⟨"audit"⟩]⟩

/-- A sample environment: one enabled user with two roles, one disabled user; the password
check is string equality; the token `"good"` verifies, the empty token is malformed, any
other token fails as expired. -/
def sampleDeps : Deps where
  isEmail := fun s => s.data.elem '@'
  validationError := fun _ => "validation failed"
  users :=
    [sampleUser, ⟨2, "u2", "off@b.com", "secret", true, []⟩]
  dbError := none
  PasswordsMatch := fun hash pw => hash == pw
  ParseJWTToken := fun t =>
    if t = "good" then (⟨"a@b.com", "u1", ["admin"], 1⟩, none)
    else if t = "" then (⟨"", "", [], 0⟩, some "token is malformed")
    else (⟨"", "", [], 0⟩, some "token is expired")
  CreateJWTToken := fun email _ _ _ ttl =>
    (if ttl = 60 then "access:" ++ email else "refresh:" ++ email, none)

/-! ## `strconv.Atoi` and 64-bit arithmetic -/

/-- The two errors of `strconv`: `ErrSyntax` ("invalid syntax") and `ErrRange`
("value out of range"). -/
inductive NumErr where
  | ErrSyntax
  | ErrRange
deriving DecidableEq, Repr

/-- Digit loop of `strconv.ParseUint(s, 10, 64)`: a byte that is not a decimal digit is a
syntax error; the scan stops with a range error as soon as the value leaves 64 bits. -/
def parseUintLoop : List Char → Nat → Except NumErr Nat
  | [], n => .ok n
  | c :: cs, n =>
    if c.isDigit then
      if 2 ^ 64 ≤ n * 10 + (c.toNat - 48) then .error .ErrRange
      else parseUintLoop cs (n * 10 + (c.toNat - 48))
    else .error .ErrSyntax

/-- Function `strconv.Atoi` on a 64-bit platform: the value and the error (`none` is `nil`).
A syntax error yields 0; a range error yields the nearest bound of `int`. -/
def Atoi (s : String) : Int × Option NumErr :=
  match s.data with
  | [] => (0, some .ErrSyntax)
  | c :: cs =>
    let neg := c == '-'
    let digits := if c == '+' || c == '-' then cs else c :: cs
    if digits.isEmpty then (0, some .ErrSyntax)
    else
      match parseUintLoop digits 0 with
      | .error .ErrSyntax => (0, some .ErrSyntax)
      | .error .ErrRange => (if neg then -(2 ^ 63) else 2 ^ 63 - 1, some .ErrRange)
      | .ok un =>
        if !neg && decide (2 ^ 63 ≤ un) then (2 ^ 63 - 1, some .ErrRange)
        else if neg && decide (2 ^ 63 < un) then (-(2 ^ 63), some .ErrRange)
        else (if neg then -(un : Int) else (un : Int), none)

/-- Text of `(*strconv.NumError).Error()`; `quote` stands for `strconv.Quote`. -/
def NumErr.text (quote : String → String) (num : String) : NumErr → String
  | .ErrSyntax => "strconv.Atoi: parsing " ++ quote num ++ ": invalid syntax"
  | .ErrRange => "strconv.Atoi: parsing " ++ quote num ++ ": value out of range"

/-- Result of an `int64` operation whose exact value is `x`: wrap-around into
`[-2^63, 2^63)`. -/
def wrapInt64 (x : Int) : Int :=
  (x + 2 ^ 63) % 2 ^ 64 - 2 ^ 63

/-! ## `ScheduledTasks` -/

/-- Constant `time.Minute`, in nanoseconds. -/
def Minute : Int := 60000000000

/-- Constant `time.Hour`, in nanoseconds. -/
def Hour : Int := 3600000000000

/-- Calls made by the body of a scheduled task. -/
inductive TaskCall where
  | JWTSaltUpdate
  | bash (command : String)
  | truncateGormLog
  | truncateAppLog
deriving DecidableEq, Repr

/-- Record `tasks.Task`: the interval (a `time.Duration`, signed 64-bit nanoseconds) and
the function run at each firing.  The function gets the time stamp formatted at
tasks..go:46 and yields the calls it makes and the error it returns (`none` is `nil`). -/
structure Task where
  Interval : Int
  TaskFunc : String → List TaskCall × Option String

/-- Body of the first task, tasks..go:30-33. -/
def saltTaskFunc : String → List TaskCall × Option String :=
  fun _ => ([.JWTSaltUpdate], none)

/-- Body of the second task, tasks..go:44-59. -/
def logTaskFunc : String → List TaskCall × Option String :=
  fun FileName =>
    ([.bash ("cp goblue.log logs/blue-" ++ FileName ++ ".log"),
      .bash ("cp blue-admin.log logs/gorm-" ++ FileName ++ ".log"),
      .truncateGormLog, .truncateAppLog], none)

/-- The tasks `ScheduledTasks` hands to `scheduler.Add`, in program order; `setting` is the
value of `JWT_SALT_LIFE_TIME` (tasks..go:24-29 and 42-44). -/
def submittedTasks (setting : String) : List Task :=
  let clear_run := (Atoi setting).1
  let jwt_update_interval := wrapInt64 (Minute * clear_run)
  [⟨jwt_update_interval, saltTaskFunc⟩, ⟨wrapInt64 (1 * Hour), logTaskFunc⟩]

/-- Function `ScheduledTasks`, tasks..go:16-66.  `addError` is the check `scheduler.Add`
of the scheduler library applies to a task (`none` when it accepts).  The result is the
scheduler's task list and the lines printed for the refused tasks. -/
def ScheduledTasks (addError : Task → Option String) (setting : String) : List Task × List String :=
  ((submittedTasks setting).filter (fun t => (addError t).isNone),
   (submittedTasks setting).filterMap addError)

/-- Check made by `Scheduler.Add` of the scheduler library (`github.com/madflojo/tasks`)
before it registers a task: a task whose interval is not positive is refused with an error.
(Its other check, a nil task function, never applies: both tasks carry a function.) -/
def schedulerAdd (t : Task) : Option String :=
  if t.Interval ≤ 0 then some "task interval must be defined" else none

/-! ## `DeleteEndpoint` -/

/-- Query of endpoint_controller.go:405: `Where("id = ?", id).First(&endpoint)`. -/
def firstEndpoint (queryError : Option String) (rows : List Endpoint) (id : Int) : Except String Endpoint :=
  match queryError with
  | some e => .error e
  | none =>
    match rows.find? (fun e => (e.ID : Int) == id) with
    | some e => .ok e
    | none => .error "record not found"

/-- Statement `db.Delete(&endpoint)`: the rows with the key of `endpoint` leave the table. -/
def deleteRow (rows : List Endpoint) (endpoint : Endpoint) : List Endpoint :=
  rows.filter (fun e => e.ID != endpoint.ID)

/-- Handler `DeleteEndpoint`, endpoint_controller.go:379-435.  `param` is the path
parameter `endpoint_id`, `rows` the endpoints table; `queryError` and `deleteError` are
failures of the database on the query and on the delete.  Returns the reply and the table
afterwards.  (The transaction `tx` is begun and committed or rolled back, but every
statement runs on `db`, outside of it, so it has no effect on the table.) -/
def DeleteEndpoint (quote : String → String) (queryError deleteError : Option String)
    (rows : List Endpoint) (param : String) : Reply × List Endpoint :=
  match Atoi param with
  | (_, some err) => (⟨400, ⟨false, err.text quote param, .null⟩⟩, rows)
  | (id, none) =>
    match firstEndpoint queryError rows id with
    | .error e => (⟨404, ⟨false, e, .null⟩⟩, rows)
    | .ok endpoint =>
      if id > 78 then
        match deleteError with
        | some _ => (⟨500, ⟨false, "Error deleting endpoint", .null⟩⟩, rows)
        | none =>
          (⟨200, ⟨true, "Endpoint deleted successfully.", .endpoint endpoint⟩⟩, deleteRow rows endpoint)
      else
        (⟨200, ⟨true, "Endpoint deleted successfully.", .endpoint endpoint⟩⟩, rows)

/-- The reply of a successful `DeleteEndpoint` for the row `endpoint`. -/
def deletedReply (endpoint : Endpoint) : Reply :=
  ⟨200, ⟨true, "Endpoint deleted successfully.", .endpoint endpoint⟩⟩

/-- A sample endpoints table: one row with a key below the gate, one above it. -/
def sampleRows : List Endpoint :=
  [⟨5, "home"⟩, ⟨80, "reports"⟩]

/-! ## Token creation calls and `CheckLogin` -/

/-- The `CreateJWTToken` calls of an effect trace, in program order. -/
def createCalls (trace : List Effect) : List Effect :=
  trace.filter (fun e =>
    match e with
    | .createToken _ _ _ _ _ => true
    | _ => false)

/-- The reply written at login.go:175-179 when the header is empty. -/
def noHeaderReply : Reply :=
  ⟨400, ⟨false, "No header provided", .text "Error Getting Header Value"⟩⟩

/-- Handler `CheckLogin`, login.go:170-198.  `token` is `contx.Get("X-APP-TOKEN")`, the
empty string when the header is absent.  Returns the replies written to the response, in
program order, and the calls made.  The write for an empty header (login.go:174-180) is
not followed by a `return`, so execution goes on to the verification. -/
def CheckLogin (d : Deps) (token : String) : List Reply × List Effect :=
  let written := if token = "" then [noHeaderReply] else []
  let parsed := d.ParseJWTToken token
  match parsed.2 with
  | some err => (written ++ [⟨403, ⟨false, err, .null⟩⟩], [.parseToken token])
  | none =>
    (written ++ [⟨202, ⟨true, "Token decode sucessfull", .claims parsed.1⟩⟩], [.parseToken token])

/-- The reply the client receives: every `contx.Status(code).JSON(body)` overwrites the
status and the body of the response, so the last write stands. -/
def finalReply (written : List Reply) : Option Reply :=
  written.getLast?

/-! ## Auxiliary facts -/

theorem roleNames_foldl (rs : List Role) (acc : List String) :
    rs.foldl (fun roles value => roles ++ [value.Name]) acc = acc ++ rs.map Role.Name := by
  induction rs generalizing acc with
  | nil => simp
  | cons r rs ih => simp [ih]

theorem roleNames_eq_map (rs : List Role) : roleNames rs = rs.map Role.Name := by
  simp [roleNames, roleNames_foldl]

theorem First_ok_enabled (d : Deps) (email : String) (user : User)
    (h : First d email = .ok user) : user.Email = email ∧ user.Disabled = false := by
  unfold First at h
  split at h
  · cases h
  · split at h
    · rename_i u hf
      cases h
      have := List.find?_some hf
      simpa using this
    · cases h

theorem First_error_of_no_enabled (d : Deps) (email : String)
    (hdb : d.dbError = none)
    (hnone : ∀ u ∈ d.users, u.Email = email → u.Disabled = true) :
    First d email = .error "record not found" := by
  have hf : d.users.find? (fun u => u.Email == email && u.Disabled == false) = none := by
    rw [List.find?_eq_none]
    intro u hu
    by_cases he : u.Email = email
    · simp [he, hnone u hu he]
    · simp [he]
  unfold First
  rw [hdb, hf]

theorem goInt_of_lt (n : Nat) (h : n < 2 ^ 63) : goInt n = (n : Int) := by
  have h64 : n % 2 ^ 64 = n := Nat.mod_eq_of_lt (by omega)
  unfold goInt
  rw [h64, if_pos h]

/-! ## Settled claims -/

/-- C1: a well-formed `authorization_code` request whose lookup returns a user (who is then
enabled) and whose password matches is answered 202 "Authorization Granted" with an access
and a refresh token; both tokens are created with the user's email, UUID, ID (through the
conversion `int(user.ID)`, the identity on keys below 2^63) and with the names of the
user's roles, in order and of the same length, empty when the user has no roles. -/
theorem C1_authorization_code_grant (d : Deps) (req : LoginPost) (user : User)
    (hvalid : validateStruct d req = none)
    (hgrant : req.GrantType = "authorization_code")
    (hfound : First d req.Email = .ok user)
    (hmatch : d.PasswordsMatch user.Password req.Password = true) :
    user.Disabled = false ∧
    (PostLogin d (.ok req)).1 =
      ⟨202, ⟨true, "Authorization Granted",
        .tokens ⟨(d.CreateJWTToken user.Email user.UUID (goInt user.ID) (user.Roles.map Role.Name) 60).1,
                 (d.CreateJWTToken user.Email user.UUID (goInt user.ID) (user.Roles.map Role.Name) 65).1,
                 "Bearer"⟩⟩⟩ ∧
    (PostLogin d (.ok req)).2 =
      [.userLookup req.Email, .passwordsMatch user.Password req.Password,
       .createToken user.Email user.UUID (goInt user.ID) (user.Roles.map Role.Name) 60,
       .createToken user.Email user.UUID (goInt user.ID) (user.Roles.map Role.Name) 65] ∧
    (user.Roles.map Role.Name).length = user.Roles.length ∧
    (user.Roles = [] → user.Roles.map Role.Name = []) ∧
    (user.ID < 2 ^ 63 → goInt user.ID = (user.ID : Int)) := by
  refine ⟨(First_ok_enabled d req.Email user hfound).2, ?_, ?_, by simp, ?_, goInt_of_lt user.ID⟩
  · simp [PostLogin, hvalid, hgrant, hfound, hmatch, roleNames_eq_map]
  · simp [PostLogin, hvalid, hgrant, hfound, hmatch, roleNames_eq_map]
  · intro h; simp [h]

/-- Witness of C1: the sample user logs in with the right password. -/
theorem C1_authorization_code_grant_witness :
    validateStruct sampleDeps ⟨"authorization_code", "a@b.com", "secret", ""⟩ = none ∧
    First sampleDeps "a@b.com" = .ok sampleUser ∧
    sampleDeps.PasswordsMatch sampleUser.Password "secret" = true ∧
    (PostLogin sampleDeps (.ok ⟨"authorization_code", "a@b.com", "secret", ""⟩)).2 =
      [.userLookup "a@b.com", .passwordsMatch "secret" "secret",
       .createToken "a@b.com" "u1" 1 ["admin", "audit"] 60,
       .createToken "a@b.com" "u1" 1 ["admin", "audit"] 65] :=
  ⟨by decide, rfl, by decide,
    (C1_authorization_code_grant sampleDeps ⟨"authorization_code", "a@b.com", "secret", ""⟩
      sampleUser (by decide) rfl rfl (by decide)).2.2.1⟩

/-- C2, as stated, fails: with the same well-formed request shape, a wrong password for the
enabled user is answered 401 while the disabled user and the absent user are answered 503
"record not found"; the replies differ. -/
theorem C2_counterexample :
    (PostLogin sampleDeps (.ok ⟨"authorization_code", "a@b.com", "wrong", ""⟩)).1 =
      ⟨401, ⟨false, "Make sure You are Providing the Correct Credentials",
        .text "Authenthication Failed"⟩⟩ ∧
    (PostLogin sampleDeps (.ok ⟨"authorization_code", "off@b.com", "secret", ""⟩)).1 =
      ⟨503, ⟨false, "record not found", .null⟩⟩ ∧
    (PostLogin sampleDeps (.ok ⟨"authorization_code", "new@b.com", "secret", ""⟩)).1 =
      ⟨503, ⟨false, "record not found", .null⟩⟩ ∧
    (PostLogin sampleDeps (.ok ⟨"authorization_code", "a@b.com", "wrong", ""⟩)).1 ≠
      (PostLogin sampleDeps (.ok ⟨"authorization_code", "off@b.com", "secret", ""⟩)).1 := by
  decide

/-- C2 (amended): for well-formed `authorization_code` requests, a password mismatch on an
existing enabled user is answered by the fixed reply 401 "Make sure You are Providing the
Correct Credentials" / "Authenthication Failed", whoever the user; a lookup that finds no
enabled user with the email (absent or disabled) is answered 503 with the lookup error
"record not found" and no data; the two replies are never equal. -/
theorem C2_rejections_differ (d d' : Deps) (req req' : LoginPost) (user : User)
    (hvalid : validateStruct d req = none)
    (hgrant : req.GrantType = "authorization_code")
    (hfound : First d req.Email = .ok user)
    (hmismatch : d.PasswordsMatch user.Password req.Password = false)
    (hvalid' : validateStruct d' req' = none)
    (hgrant' : req'.GrantType = "authorization_code")
    (hdb : d'.dbError = none)
    (hnone : ∀ u ∈ d'.users, u.Email = req'.Email → u.Disabled = true) :
    (PostLogin d (.ok req)).1 =
      ⟨401, ⟨false, "Make sure You are Providing the Correct Credentials",
        .text "Authenthication Failed"⟩⟩ ∧
    (PostLogin d' (.ok req')).1 = ⟨503, ⟨false, "record not found", .null⟩⟩ ∧
    (PostLogin d (.ok req)).1 ≠ (PostLogin d' (.ok req')).1 := by
  have h1 : (PostLogin d (.ok req)).1 =
      ⟨401, ⟨false, "Make sure You are Providing the Correct Credentials",
        .text "Authenthication Failed"⟩⟩ := by
    simp [PostLogin, hvalid, hgrant, hfound, hmismatch]
  have h2 : (PostLogin d' (.ok req')).1 = ⟨503, ⟨false, "record not found", .null⟩⟩ := by
    simp [PostLogin, hvalid', hgrant', First_error_of_no_enabled d' req'.Email hdb hnone]
  refine ⟨h1, h2, ?_⟩
  rw [h1, h2]
  decide

/-- Witness of C2 (amended): wrong password for the sample user, and the disabled user. -/
theorem C2_rejections_differ_witness :
    First sampleDeps "a@b.com" = .ok sampleUser ∧
    sampleDeps.PasswordsMatch sampleUser.Password "wrong" = false ∧
    (PostLogin sampleDeps (.ok ⟨"authorization_code", "a@b.com", "wrong", ""⟩)).1 ≠
      (PostLogin sampleDeps (.ok ⟨"authorization_code", "off@b.com", "secret", ""⟩)).1 :=
  ⟨rfl, by decide,
    (C2_rejections_differ sampleDeps sampleDeps ⟨"authorization_code", "a@b.com", "wrong", ""⟩
      ⟨"authorization_code", "off@b.com", "secret", ""⟩ sampleUser
      (by decide) rfl rfl (by decide) (by decide) rfl rfl (by decide)).2.2⟩

/-- C3, as stated, fails: a `refresh_token` request with an empty email and a token that
`ParseJWTToken` accepts is rejected 400 by struct validation; the token is never parsed and
no token is created. -/
theorem C3_counterexample :
    (sampleDeps.ParseJWTToken "good").2 = none ∧
    PostLogin sampleDeps (.ok ⟨"refresh_token", "", "", "good"⟩) =
      (⟨400, ⟨false, "validation failed", .null⟩⟩, []) := by
  decide

/-- C3 (amended): for every `refresh_token` request that passes struct validation: if
`ParseJWTToken` accepts the token, the reply is 202 "Authorization Granted" with a new
access/refresh pair, both created from exactly the email, UUID, user ID and roles of the
verified claims; if it rejects the token, the reply is the 400 rejection of this flow and
no token is created. -/
theorem C3_refresh_token (d : Deps) (req : LoginPost)
    (hvalid : validateStruct d req = none)
    (hgrant : req.GrantType = "refresh_token") :
    ((d.ParseJWTToken req.Token).2 = none →
      PostLogin d (.ok req) =
        (⟨202, ⟨true, "Authorization Granted",
          .tokens ⟨(d.CreateJWTToken (d.ParseJWTToken req.Token).1.Email
                      (d.ParseJWTToken req.Token).1.UUID (d.ParseJWTToken req.Token).1.UserID
                      (d.ParseJWTToken req.Token).1.Roles 60).1,
                   (d.CreateJWTToken (d.ParseJWTToken req.Token).1.Email
                      (d.ParseJWTToken req.Token).1.UUID (d.ParseJWTToken req.Token).1.UserID
                      (d.ParseJWTToken req.Token).1.Roles 65).1,
                   "Bearer"⟩⟩⟩,
         [.parseToken req.Token,
          .createToken (d.ParseJWTToken req.Token).1.Email (d.ParseJWTToken req.Token).1.UUID
            (d.ParseJWTToken req.Token).1.UserID (d.ParseJWTToken req.Token).1.Roles 60,
          .createToken (d.ParseJWTToken req.Token).1.Email (d.ParseJWTToken req.Token).1.UUID
            (d.ParseJWTToken req.Token).1.UserID (d.ParseJWTToken req.Token).1.Roles 65])) ∧
    ((d.ParseJWTToken req.Token).2 ≠ none →
      PostLogin d (.ok req) =
        (⟨400, ⟨false, "Request Type Unknown", .text "Currently Not Implemented"⟩⟩,
         [.parseToken req.Token])) := by
  constructor
  · intro h
    simp [PostLogin, hvalid, hgrant, h]
  · intro h
    cases hp : (d.ParseJWTToken req.Token).2 with
    | none => exact absurd hp h
    | some err => simp [PostLogin, hvalid, hgrant, hp]

/-- Witness of C3 (amended): a well-formed refresh request with the valid sample token. -/
theorem C3_refresh_token_witness :
    validateStruct sampleDeps ⟨"refresh_token", "a@b.com", "", "good"⟩ = none ∧
    (sampleDeps.ParseJWTToken "good").2 = none ∧
    (PostLogin sampleDeps (.ok ⟨"refresh_token", "a@b.com", "", "good"⟩)).2 =
      [.parseToken "good", .createToken "a@b.com" "u1" 1 ["admin"] 60,
       .createToken "a@b.com" "u1" 1 ["admin"] 65] :=
  ⟨by decide, by decide,
    congrArg Prod.snd
      ((C3_refresh_token sampleDeps ⟨"refresh_token", "a@b.com", "", "good"⟩
        (by decide) rfl).1 (by decide))⟩

/-- C4: a well-formed request whose grant type is none of `authorization_code`,
`refresh_token`, `token_decode` is answered 400 "Request Type Unknown" / "Unknown grant
type", and the handler makes no call at all: no lookup, no password comparison, no token
parsed, no token created. -/
theorem C4_unknown_grant_rejected (d : Deps) (req : LoginPost)
    (hvalid : validateStruct d req = none)
    (hauth : req.GrantType ≠ "authorization_code")
    (hrefresh : req.GrantType ≠ "refresh_token")
    (hdecode : req.GrantType ≠ "token_decode") :
    PostLogin d (.ok req) =
      (⟨400, ⟨false, "Request Type Unknown", .text "Unknown grant type"⟩⟩, []) := by
  simp [PostLogin, hvalid, hauth, hrefresh, hdecode]

/-- Witness of C4: the grant type `password`. -/
theorem C4_unknown_grant_rejected_witness :
    validateStruct sampleDeps ⟨"password", "a@b.com", "secret", "good"⟩ = none ∧
    PostLogin sampleDeps (.ok ⟨"password", "a@b.com", "secret", "good"⟩) =
      (⟨400, ⟨false, "Request Type Unknown", .text "Unknown grant type"⟩⟩, []) :=
  ⟨by decide,
    C4_unknown_grant_rejected sampleDeps ⟨"password", "a@b.com", "secret", "good"⟩
      (by decide) (by decide) (by decide) (by decide)⟩

/-- For a request with a known grant type, the reply equals the unsupported-grant reply
exactly when the request is a well-formed `token_decode` whose verification error has the
text "Request Type Unknown". -/
theorem reply_eq_unsupported_iff (d : Deps) (req : LoginPost)
    (hgrant : req.GrantType = "authorization_code" ∨ req.GrantType = "refresh_token" ∨
      req.GrantType = "token_decode") :
    (PostLogin d (.ok req)).1 = unsupportedGrantReply ↔
      (validateStruct d req = none ∧ req.GrantType = "token_decode" ∧
        (d.ParseJWTToken req.Token).2 = some "Request Type Unknown") := by
  cases hv : validateStruct d req with
  | some e => simp [PostLogin, unsupportedGrantReply, hv]
  | none =>
    rcases hgrant with hg | hg | hg
    · cases hf : First d req.Email with
      | error e => simp [PostLogin, unsupportedGrantReply, hv, hg, hf]
      | ok user =>
        by_cases hm : d.PasswordsMatch user.Password req.Password = true
        · simp [PostLogin, unsupportedGrantReply, hv, hg, hf, hm]
        · simp [PostLogin, unsupportedGrantReply, hv, hg, hf, hm]
    · cases hp : (d.ParseJWTToken req.Token).2 with
      | none => simp [PostLogin, unsupportedGrantReply, hv, hg, hp]
      | some err => simp [PostLogin, unsupportedGrantReply, hv, hg, hp]
    · cases hp : (d.ParseJWTToken req.Token).2 with
      | none => simp [PostLogin, unsupportedGrantReply, hv, hg, hp]
      | some err => simp [PostLogin, unsupportedGrantReply, hv, hg, hp]

/-- C5: the unsupported-grant rejection is distinct from every reply of the known grants.
Let `other` be any well-formed request with an unknown grant type, and `req` any request
with a known grant type, whatever the outcome of its validation, user lookup, password
check and token verification; the error of a token verifier is an error about the token
(expired, bad signature, malformed), so its text is not the handler's own message "Request
Type Unknown".  Then the reply to `req` is not the reply to `other`, which is 400 "Request
Type Unknown" / "Unknown grant type". -/
theorem C5_unsupported_grant_distinct (d : Deps) (req other : LoginPost)
    (hgrant : req.GrantType = "authorization_code" ∨ req.GrantType = "refresh_token" ∨
      req.GrantType = "token_decode")
    (hverifier : (d.ParseJWTToken req.Token).2 ≠ some "Request Type Unknown")
    (hvalid : validateStruct d other = none)
    (hauth : other.GrantType ≠ "authorization_code")
    (hrefresh : other.GrantType ≠ "refresh_token")
    (hdecode : other.GrantType ≠ "token_decode") :
    (PostLogin d (.ok other)).1 =
      ⟨400, ⟨false, "Request Type Unknown", .text "Unknown grant type"⟩⟩ ∧
    (PostLogin d (.ok req)).1 ≠ (PostLogin d (.ok other)).1 := by
  have hother : (PostLogin d (.ok other)).1 = unsupportedGrantReply := by
    simp [PostLogin, unsupportedGrantReply, hvalid, hauth, hrefresh, hdecode]
  refine ⟨hother, ?_⟩
  rw [hother]
  intro h
  exact hverifier ((reply_eq_unsupported_iff d req hgrant).1 h).2.2

/-- Witness of C5: a `token_decode` of an expired token against the grant type `password`. -/
theorem C5_unsupported_grant_distinct_witness :
    (sampleDeps.ParseJWTToken "old").2 = some "token is expired" ∧
    validateStruct sampleDeps ⟨"password", "a@b.com", "", "old"⟩ = none ∧
    (PostLogin sampleDeps (.ok ⟨"token_decode", "a@b.com", "", "old"⟩)).1 ≠
      (PostLogin sampleDeps (.ok ⟨"password", "a@b.com", "", "old"⟩)).1 :=
  ⟨by decide, by decide,
    (C5_unsupported_grant_distinct sampleDeps ⟨"token_decode", "a@b.com", "", "old"⟩
      ⟨"password", "a@b.com", "", "old"⟩ (Or.inr (Or.inr rfl)) (by decide) (by decide)
      (by decide) (by decide) (by decide)).2⟩

/-- C6, as stated, fails: two tokens that both fail verification, with different errors,
get different `token_decode` rejections; and the rejection of one failing token under
`refresh_token` differs from its rejection under `token_decode`. -/
theorem C6_counterexample :
    (sampleDeps.ParseJWTToken "old").2 = some "token is expired" ∧
    (sampleDeps.ParseJWTToken "").2 = some "token is malformed" ∧
    (PostLogin sampleDeps (.ok ⟨"token_decode", "a@b.com", "", "old"⟩)).1 ≠
      (PostLogin sampleDeps (.ok ⟨"token_decode", "a@b.com", "", ""⟩)).1 ∧
    (PostLogin sampleDeps (.ok ⟨"refresh_token", "a@b.com", "", "old"⟩)).1 ≠
      (PostLogin sampleDeps (.ok ⟨"token_decode", "a@b.com", "", "old"⟩)).1 := by
  decide

/-- C6 (amended): for well-formed requests whose token fails `ParseJWTToken`: under
`refresh_token` the reply is the fixed 400 "Request Type Unknown" / "Currently Not
Implemented", whatever the verification error; under `token_decode` the reply is 400 with
data "Unknown grant type" and the verification error's text as message; the reply under
`refresh_token` is never the reply under `token_decode`. -/
theorem C6_token_rejections (d : Deps) (r t : LoginPost) (err : String)
    (hrvalid : validateStruct d r = none)
    (hrgrant : r.GrantType = "refresh_token")
    (hrfail : (d.ParseJWTToken r.Token).2 ≠ none)
    (htvalid : validateStruct d t = none)
    (htgrant : t.GrantType = "token_decode")
    (htfail : (d.ParseJWTToken t.Token).2 = some err) :
    (PostLogin d (.ok r)).1 =
      ⟨400, ⟨false, "Request Type Unknown", .text "Currently Not Implemented"⟩⟩ ∧
    (PostLogin d (.ok t)).1 = ⟨400, ⟨false, err, .text "Unknown grant type"⟩⟩ ∧
    (PostLogin d (.ok r)).1 ≠ (PostLogin d (.ok t)).1 := by
  have h1 : (PostLogin d (.ok r)).1 =
      ⟨400, ⟨false, "Request Type Unknown", .text "Currently Not Implemented"⟩⟩ := by
    cases hp : (d.ParseJWTToken r.Token).2 with
    | none => exact absurd hp hrfail
    | some e => simp [PostLogin, hrvalid, hrgrant, hp]
  have h2 : (PostLogin d (.ok t)).1 = ⟨400, ⟨false, err, .text "Unknown grant type"⟩⟩ := by
    simp [PostLogin, htvalid, htgrant, htfail]
  refine ⟨h1, h2, ?_⟩
  rw [h1, h2]
  simp

/-- Witness of C6 (amended): the expired sample token under both grants. -/
theorem C6_token_rejections_witness :
    (sampleDeps.ParseJWTToken "old").2 = some "token is expired" ∧
    (PostLogin sampleDeps (.ok ⟨"token_decode", "a@b.com", "", "old"⟩)).1 =
      ⟨400, ⟨false, "token is expired", .text "Unknown grant type"⟩⟩ :=
  ⟨by decide,
    (C6_token_rejections sampleDeps ⟨"refresh_token", "a@b.com", "", "old"⟩
      ⟨"token_decode", "a@b.com", "", "old"⟩ "token is expired"
      (by decide) rfl (by decide) (by decide) rfl (by decide)).2.1⟩

/-- C7: a request whose body fails to parse, or whose parsed body fails struct validation
(empty grant type, or an email that is not a valid address of 6 to 32 characters), is
answered 400 whatever its grant type, and the handler makes no call at all: no lookup, no
password comparison, no token parsed, no token created. -/
theorem C7_malformed_rejected_first (d : Deps) :
    (∀ e : String, PostLogin d (.error e) = (⟨400, ⟨false, e, .null⟩⟩, [])) ∧
    (∀ req : LoginPost,
      (req.GrantType = "" ∨ d.isEmail req.Email = false ∨ req.Email.length < 6 ∨
        32 < req.Email.length) →
      PostLogin d (.ok req) = (⟨400, ⟨false, d.validationError req, .null⟩⟩, [])) := by
  refine ⟨fun e => rfl, fun req h => ?_⟩
  have hv : validateStruct d req = some (d.validationError req) := by
    unfold validateStruct
    rw [if_neg]
    rintro ⟨hg, he, hmin, hmax⟩
    rcases h with h | h | h | h
    · exact hg h
    · rw [he] at h; cases h
    · omega
    · omega
  simp [PostLogin, hv]

/-- Witness of C7: a login request whose email has five characters. -/
theorem C7_malformed_rejected_first_witness :
    ("a@b.c" : String).length < 6 ∧
    PostLogin sampleDeps (.ok ⟨"authorization_code", "a@b.c", "secret", ""⟩) =
      (⟨400, ⟨false, "validation failed", .null⟩⟩, []) :=
  ⟨by decide,
    (C7_malformed_rejected_first sampleDeps).2 ⟨"authorization_code", "a@b.c", "secret", ""⟩
      (Or.inr (Or.inr (Or.inl (by decide))))⟩

/-- C8: for a well-formed `token_decode` request the reply is a success if and only if
`ParseJWTToken` accepts the token; on success it is 202 with exactly the returned claims
as data; on failure it is a 400 rejection whose data is a text, not claims; in both cases
the only call made is the verification of the token: no token created, no user lookup. -/
theorem C8_token_decode (d : Deps) (req : LoginPost)
    (hvalid : validateStruct d req = none)
    (hgrant : req.GrantType = "token_decode") :
    ((PostLogin d (.ok req)).1.Body.Success = true ↔ (d.ParseJWTToken req.Token).2 = none) ∧
    ((d.ParseJWTToken req.Token).2 = none →
      (PostLogin d (.ok req)).1 =
        ⟨202, ⟨true, "Token decode sucessfull", .claims (d.ParseJWTToken req.Token).1⟩⟩) ∧
    (∀ err, (d.ParseJWTToken req.Token).2 = some err →
      (PostLogin d (.ok req)).1 = ⟨400, ⟨false, err, .text "Unknown grant type"⟩⟩) ∧
    (PostLogin d (.ok req)).2 = [.parseToken req.Token] := by
  cases hp : (d.ParseJWTToken req.Token).2 with
  | none => simp [PostLogin, hvalid, hgrant, hp]
  | some e => simp [PostLogin, hvalid, hgrant, hp]

/-- Witness of C8: decoding the valid sample token. -/
theorem C8_token_decode_witness :
    validateStruct sampleDeps ⟨"token_decode", "a@b.com", "", "good"⟩ = none ∧
    (PostLogin sampleDeps (.ok ⟨"token_decode", "a@b.com", "", "good"⟩)).1 =
      ⟨202, ⟨true, "Token decode sucessfull", .claims ⟨"a@b.com", "u1", ["admin"], 1⟩⟩⟩ :=
  ⟨by decide,
    (C8_token_decode sampleDeps ⟨"token_decode", "a@b.com", "", "good"⟩
      (by decide) rfl).2.1 (by decide)⟩

/-! ### Rotation task -/

theorem Atoi_syntax_value (s : String) (h : (Atoi s).2 = some .ErrSyntax) : (Atoi s).1 = 0 := by
  unfold Atoi at h ⊢
  cases hs : s.data with
  | nil => simp
  | cons c cs =>
    simp only [hs] at h ⊢
    generalize (if (c == '+' || c == '-') = true then cs else c :: cs) = digits at h ⊢
    generalize (c == '-') = neg at h ⊢
    by_cases he : digits.isEmpty = true
    · simp [he]
    · simp only [he] at h ⊢
      cases hp : parseUintLoop digits 0 with
      | error e => cases e <;> simp [hp] at h ⊢
      | ok un =>
        simp only [hp] at h ⊢
        split_ifs at h ⊢ <;> first | rfl | simp at h

theorem wrapInt64_of_range (x : Int) (hlo : -(2 ^ 63) ≤ x) (hhi : x < 2 ^ 63) : wrapInt64 x = x := by
  unfold wrapInt64
  have h : (x + 2 ^ 63) % 2 ^ 64 = x + 2 ^ 63 := Int.emod_eq_of_lt (by omega) (by omega)
  rw [h]
  omega

theorem logTaskFunc_no_salt (stamp : String) : TaskCall.JWTSaltUpdate ∉ (logTaskFunc stamp).1 := by
  simp [logTaskFunc]

theorem schedulerAdd_log_task : schedulerAdd ⟨wrapInt64 Hour, logTaskFunc⟩ = none := by
  decide

theorem schedulerAdd_of_pos (t : Task) (h : 0 < t.Interval) : schedulerAdd t = none := by
  unfold schedulerAdd
  rw [if_neg (by omega)]

theorem schedulerAdd_of_nonpos (t : Task) (h : t.Interval ≤ 0) : (schedulerAdd t).isNone = false := by
  unfold schedulerAdd
  rw [if_pos h]
  rfl

/-- C9, as stated, fails.  The setting "153722868" parses as the integer 153722868, but the
product with `time.Minute` leaves 64 bits: the task handed over has a negative interval and
no registered task has an interval of 153722868 minutes.  The setting "0" parses as 0, the
interval 0 is refused by the scheduler and no rotation task is registered; the same happens
for "abc", which does not parse.  The setting "99999999999999999999" does not parse (range
error), yet N is the largest `int`, not 0, and the interval is not 0. -/
theorem C9_counterexample :
    Atoi "153722868" = (153722868, none) ∧
    (submittedTasks "153722868").map Task.Interval = [-9223371993709551616, 3600000000000] ∧
    (∀ t ∈ (ScheduledTasks schedulerAdd "153722868").1, t.Interval ≠ 153722868 * Minute) ∧
    Atoi "0" = (0, none) ∧
    (ScheduledTasks schedulerAdd "0").1.map Task.Interval = [3600000000000] ∧
    (∀ t ∈ (ScheduledTasks schedulerAdd "0").1, TaskCall.JWTSaltUpdate ∉ (t.TaskFunc "").1) ∧
    Atoi "abc" = (0, some .ErrSyntax) ∧
    (∀ t ∈ (ScheduledTasks schedulerAdd "abc").1, TaskCall.JWTSaltUpdate ∉ (t.TaskFunc "").1) ∧
    Atoi "99999999999999999999" = (9223372036854775807, some .ErrRange) ∧
    (submittedTasks "99999999999999999999").map Task.Interval = [-60000000000, 3600000000000] := by
  decide

/-- C9 (amended): when `JWT_SALT_LIFE_TIME` parses as an integer N with
1 ≤ N ≤ 153722867 (a positive number of minutes that fits a 64-bit duration),
`ScheduledTasks` registers exactly one secret-rotation task, its interval is exactly N
minutes, and every firing of it calls `JWTSaltUpdate` exactly once and returns no error;
the only other registered task is the log task, which never calls `JWTSaltUpdate`.  When
the setting is not a decimal numeral (syntax error), N is 0 and the interval computed for
the rotation task is 0, which the scheduler refuses: no rotation task is registered. -/
theorem C9_rotation_task (setting : String) :
    (∀ N : Int, Atoi setting = (N, none) → 1 ≤ N → N ≤ 153722867 →
      ∃ rot log, (ScheduledTasks schedulerAdd setting).1 = [rot, log] ∧
        rot.Interval = N * Minute ∧
        (∀ stamp, rot.TaskFunc stamp = ([TaskCall.JWTSaltUpdate], none)) ∧
        (∀ stamp, TaskCall.JWTSaltUpdate ∉ (log.TaskFunc stamp).1)) ∧
    ((Atoi setting).2 = some .ErrSyntax →
      (Atoi setting).1 = 0 ∧
      (∃ rot log, submittedTasks setting = [rot, log] ∧ rot.Interval = 0 ∧
        (∀ stamp, rot.TaskFunc stamp = ([TaskCall.JWTSaltUpdate], none))) ∧
      (∀ t ∈ (ScheduledTasks schedulerAdd setting).1,
        ∀ stamp, TaskCall.JWTSaltUpdate ∉ (t.TaskFunc stamp).1)) := by
  constructor
  · intro N hparse hlo hhi
    have hw : wrapInt64 (Minute * N) = N * Minute := by
      rw [wrapInt64_of_range] <;> simp only [Minute] <;> omega
    have hpos : (0 : Int) < N * Minute := by
      simp only [Minute]; omega
    have hrot : schedulerAdd ⟨N * Minute, saltTaskFunc⟩ = none :=
      schedulerAdd_of_pos ⟨N * Minute, saltTaskFunc⟩ hpos
    refine ⟨⟨N * Minute, saltTaskFunc⟩, ⟨wrapInt64 (1 * Hour), logTaskFunc⟩, ?_, rfl,
      fun _ => rfl, logTaskFunc_no_salt⟩
    simp [ScheduledTasks, submittedTasks, hparse, hw, List.filter_cons, hrot,
      schedulerAdd_log_task]
  · intro hsyn
    have h0 := Atoi_syntax_value setting hsyn
    have hsub : submittedTasks setting =
        [⟨0, saltTaskFunc⟩, ⟨wrapInt64 (1 * Hour), logTaskFunc⟩] := by
      simp [submittedTasks, h0, wrapInt64]
    refine ⟨h0, ⟨⟨0, saltTaskFunc⟩, ⟨wrapInt64 (1 * Hour), logTaskFunc⟩, hsub, rfl,
      fun _ => rfl⟩, ?_⟩
    intro t ht stamp
    have hreg : (ScheduledTasks schedulerAdd setting).1 =
        [⟨wrapInt64 (1 * Hour), logTaskFunc⟩] := by
      have hz : (schedulerAdd ⟨0, saltTaskFunc⟩).isNone = false :=
        schedulerAdd_of_nonpos ⟨0, saltTaskFunc⟩ (le_refl 0)
      simp [ScheduledTasks, hsub, List.filter_cons, hz, schedulerAdd_log_task]
    rw [hreg, List.mem_singleton] at ht
    subst ht
    exact logTaskFunc_no_salt stamp

/-- Witness of C9 (amended): the setting "5" registers a rotation task every five minutes. -/
theorem C9_rotation_task_witness :
    Atoi "5" = (5, none) ∧
    ∃ rot log, (ScheduledTasks schedulerAdd "5").1 = [rot, log] ∧
      rot.Interval = 5 * Minute ∧
      (∀ stamp, rot.TaskFunc stamp = ([TaskCall.JWTSaltUpdate], none)) ∧
      (∀ stamp, TaskCall.JWTSaltUpdate ∉ (log.TaskFunc stamp).1) :=
  ⟨by decide, (C9_rotation_task "5").1 5 (by decide) (by decide) (by decide)⟩

/-! ### Endpoint deletion -/

theorem firstEndpoint_ok_id (queryError : Option String) (rows : List Endpoint) (id : Int)
    (e : Endpoint) (h : firstEndpoint queryError rows id = .ok e) :
    e ∈ rows ∧ (e.ID : Int) = id := by
  unfold firstEndpoint at h
  split at h
  · cases h
  · split at h
    · rename_i u hf
      cases h
      exact ⟨List.mem_of_find?_eq_some hf, by simpa using List.find?_some hf⟩
    · cases h

theorem firstEndpoint_of_mem (rows : List Endpoint) (id : Int) (endpoint : Endpoint)
    (hmem : endpoint ∈ rows) (hid : (endpoint.ID : Int) = id) :
    ∃ e, firstEndpoint none rows id = .ok e := by
  unfold firstEndpoint
  cases hf : rows.find? (fun e => (e.ID : Int) == id) with
  | some e => exact ⟨e, rfl⟩
  | none =>
    rw [List.find?_eq_none] at hf
    exact absurd (by simpa using hid) (hf endpoint hmem)

/-- C10: `DeleteEndpoint` is documented to remove the endpoint with the given ID
(endpoint_controller.go:367-369, 401, 414), and the code does not: for the existing
endpoint 5 (`DELETE /endpoint/5`) the delete is skipped behind `id > 78`, the handler still
answers 200 "Endpoint deleted successfully.", and the endpoint is still in the table, which
is unchanged. -/
theorem C10_gated_delete_reports_success :
    Atoi "5" = (5, none) ∧
    (⟨5, "home"⟩ : Endpoint) ∈ sampleRows ∧
    DeleteEndpoint id none none sampleRows "5" =
      (⟨200, ⟨true, "Endpoint deleted successfully.", .endpoint ⟨5, "home"⟩⟩⟩, sampleRows) ∧
    (⟨5, "home"⟩ : Endpoint) ∈ (DeleteEndpoint id none none sampleRows "5").2 := by
  decide

/-- The path above the gate does what the documentation says: for an existing endpoint with
an ID greater than 78, a 200 reply means that no row with that ID is left while every other
row is kept, and the reply is 200 when the database reports no error.  At or below the gate
the table is never changed. -/
theorem DeleteEndpoint_above_gate (quote : String → String) (queryError deleteError : Option String)
    (rows : List Endpoint) (param : String) (id : Int) (endpoint : Endpoint)
    (hparse : Atoi param = (id, none))
    (hmem : endpoint ∈ rows)
    (hid : (endpoint.ID : Int) = id) :
    (78 < id →
      ((DeleteEndpoint quote queryError deleteError rows param).1.Status = 200 →
        (∀ e ∈ (DeleteEndpoint quote queryError deleteError rows param).2, (e.ID : Int) ≠ id) ∧
        (∀ e ∈ rows, (e.ID : Int) ≠ id →
          e ∈ (DeleteEndpoint quote queryError deleteError rows param).2)) ∧
      (queryError = none → deleteError = none →
        (DeleteEndpoint quote queryError deleteError rows param).1.Status = 200)) ∧
    (id ≤ 78 → (DeleteEndpoint quote queryError deleteError rows param).2 = rows) := by
  constructor
  · intro hgate
    constructor
    · intro hstatus
      cases hf : firstEndpoint queryError rows id with
      | error e => simp [DeleteEndpoint, hparse, hf] at hstatus
      | ok e0 =>
        have hid0 := (firstEndpoint_ok_id queryError rows id e0 hf).2
        cases hd : deleteError with
        | some e => simp [DeleteEndpoint, hparse, hf, hgate, hd] at hstatus
        | none =>
          have hrows : (DeleteEndpoint quote queryError none rows param).2 =
              deleteRow rows e0 := by
            simp [DeleteEndpoint, hparse, hf, hgate]
          rw [hrows]
          constructor
          · intro e he hcontra
            have hne : e.ID ≠ e0.ID := by simpa [deleteRow] using (List.mem_filter.mp he).2
            apply hne
            have : (e.ID : Int) = (e0.ID : Int) := by rw [hcontra, hid0]
            exact_mod_cast this
          · intro e he hne
            refine List.mem_filter.mpr ⟨he, ?_⟩
            have : e.ID ≠ e0.ID := by
              intro heq
              apply hne
              rw [heq, hid0]
            simpa using this
    · intro hq hd
      subst hq
      subst hd
      obtain ⟨e0, hf⟩ := firstEndpoint_of_mem rows id endpoint hmem hid
      simp [DeleteEndpoint, hparse, hf, hgate]
  · intro hgate
    have hng : ¬ (78 < id) := by omega
    cases hf : firstEndpoint queryError rows id with
    | error e => simp [DeleteEndpoint, hparse, hf]
    | ok e0 => simp [DeleteEndpoint, hparse, hf, hng]

/-! ### Token pair of a grant, and `CheckLogin` -/

/-- C11: every granted `PostLogin` response (success, "Authorization Granted") comes from
the `authorization_code` or the `refresh_token` grant; its two tokens are created by
exactly two `CreateJWTToken` calls with the same email, UUID, user ID and role list, the
access token with ttl 60 and the refresh token with ttl 65 (60 < 65), and the token type of
the response is "Bearer". -/
theorem C11_granted_pair (d : Deps) (body : Except String LoginPost)
    (hsuccess : (PostLogin d body).1.Body.Success = true)
    (hmessage : (PostLogin d body).1.Body.Message = "Authorization Granted") :
    ∃ req email uuid userID roles,
      body = .ok req ∧
      (req.GrantType = "authorization_code" ∨ req.GrantType = "refresh_token") ∧
      (PostLogin d body).1 =
        ⟨202, ⟨true, "Authorization Granted",
          .tokens ⟨(d.CreateJWTToken email uuid userID roles 60).1,
                   (d.CreateJWTToken email uuid userID roles 65).1, "Bearer"⟩⟩⟩ ∧
      createCalls (PostLogin d body).2 =
        [.createToken email uuid userID roles 60, .createToken email uuid userID roles 65] ∧
      (60 : Int) < 65 := by
  cases body with
  | error e => simp [PostLogin] at hsuccess
  | ok req =>
    cases hv : validateStruct d req with
    | some e => simp [PostLogin, hv] at hsuccess
    | none =>
      by_cases ha : req.GrantType = "authorization_code"
      · cases hf : First d req.Email with
        | error e => simp [PostLogin, hv, ha, hf] at hsuccess
        | ok user =>
          by_cases hm : d.PasswordsMatch user.Password req.Password = true
          · refine ⟨req, user.Email, user.UUID, goInt user.ID, roleNames user.Roles, rfl,
              Or.inl ha, ?_, ?_, by decide⟩
            · simp [PostLogin, hv, ha, hf, hm]
            · simp [PostLogin, hv, ha, hf, hm, createCalls]
          · simp [PostLogin, hv, ha, hf, hm] at hsuccess
      · by_cases hr : req.GrantType = "refresh_token"
        · cases hp : (d.ParseJWTToken req.Token).2 with
          | some err => simp [PostLogin, hv, hr, hp] at hsuccess
          | none =>
            refine ⟨req, (d.ParseJWTToken req.Token).1.Email, (d.ParseJWTToken req.Token).1.UUID,
              (d.ParseJWTToken req.Token).1.UserID, (d.ParseJWTToken req.Token).1.Roles, rfl,
              Or.inr hr, ?_, ?_, by decide⟩
            · simp [PostLogin, hv, hr, hp]
            · simp [PostLogin, hv, hr, hp, createCalls]
        · by_cases ht : req.GrantType = "token_decode"
          · cases hp : (d.ParseJWTToken req.Token).2 with
            | some err => simp [PostLogin, hv, ht, hp] at hsuccess
            | none => simp [PostLogin, hv, ht, hp] at hmessage
          · simp [PostLogin, hv, ha, hr, ht] at hsuccess

/-- Witness of C11: the granted login of the sample user. -/
theorem C11_granted_pair_witness :
    (PostLogin sampleDeps (.ok ⟨"authorization_code", "a@b.com", "secret", ""⟩)).1.Body.Success =
      true ∧
    (PostLogin sampleDeps (.ok ⟨"authorization_code", "a@b.com", "secret", ""⟩)).1.Body.Message =
      "Authorization Granted" ∧
    ∃ req email uuid userID roles,
      (.ok ⟨"authorization_code", "a@b.com", "secret", ""⟩ : Except String LoginPost) = .ok req ∧
      (req.GrantType = "authorization_code" ∨ req.GrantType = "refresh_token") ∧
      (PostLogin sampleDeps (.ok ⟨"authorization_code", "a@b.com", "secret", ""⟩)).1 =
        ⟨202, ⟨true, "Authorization Granted",
          .tokens ⟨(sampleDeps.CreateJWTToken email uuid userID roles 60).1,
                   (sampleDeps.CreateJWTToken email uuid userID roles 65).1, "Bearer"⟩⟩⟩ ∧
      createCalls (PostLogin sampleDeps (.ok ⟨"authorization_code", "a@b.com", "secret", ""⟩)).2 =
        [.createToken email uuid userID roles 60, .createToken email uuid userID roles 65] ∧
      (60 : Int) < 65 :=
  ⟨by decide, by decide,
    C11_granted_pair sampleDeps (.ok ⟨"authorization_code", "a@b.com", "secret", ""⟩)
      (by decide) (by decide)⟩

/-- C12: the final response of `CheckLogin` is decided by `ParseJWTToken` on the header
value alone, the empty value included: it is the 202 success carrying the returned claims
when no error is reported, and the 403 rejection carrying the error's text otherwise.  For
an empty header the 400 "No header provided" reply is written first, the handler goes on to
verify the empty token, and the final response is never that 400 reply. -/
theorem C12_checklogin_final (d : Deps) (token : String) :
    ((d.ParseJWTToken token).2 = none →
      finalReply (CheckLogin d token).1 =
        some ⟨202, ⟨true, "Token decode sucessfull", .claims (d.ParseJWTToken token).1⟩⟩) ∧
    (∀ err, (d.ParseJWTToken token).2 = some err →
      finalReply (CheckLogin d token).1 = some ⟨403, ⟨false, err, .null⟩⟩) ∧
    (token = "" →
      (CheckLogin d token).1.head? = some noHeaderReply ∧ (CheckLogin d token).1.length = 2) ∧
    (token ≠ "" → (CheckLogin d token).1.length = 1) ∧
    finalReply (CheckLogin d token).1 ≠ some noHeaderReply ∧
    (CheckLogin d token).2 = [.parseToken token] := by
  cases hp : (d.ParseJWTToken token).2 with
  | none =>
    by_cases ht : token = ""
    · subst ht
      simp [CheckLogin, finalReply, noHeaderReply, hp]
    · simp [CheckLogin, finalReply, noHeaderReply, hp, ht]
  | some e =>
    by_cases ht : token = ""
    · subst ht
      simp [CheckLogin, finalReply, noHeaderReply, hp]
    · simp [CheckLogin, finalReply, noHeaderReply, hp, ht]

/-- Witness of C12: the empty header; its verification fails, the final reply is the 403. -/
theorem C12_checklogin_final_witness :
    (sampleDeps.ParseJWTToken "").2 = some "token is malformed" ∧
    finalReply (CheckLogin sampleDeps "").1 = some ⟨403, ⟨false, "token is malformed", .null⟩⟩ ∧
    (CheckLogin sampleDeps "").1.head? = some noHeaderReply ∧
    (CheckLogin sampleDeps "").1.length = 2 :=
  ⟨by decide,
    (C12_checklogin_final sampleDeps "").2.1 "token is malformed" (by decide),
    (C12_checklogin_final sampleDeps "").2.2.1 rfl⟩

end BlueAdmin
